import Mathlib

/-!
Verification development for the ai-script-agent generation pipeline.

The Python source is embedded shallowly:
* `JValue` models Python JSON-like values (`json.loads` results and the
  dict payloads passed between pipeline stages).  Numbers are modelled as
  integers: every numeric field the pipeline manipulates (token counters)
  is an integer in the source.
* `json_loads` is an executable model of Python's `json.loads`: it parses
  the whole string (surrounding whitespace allowed) or fails.
* The agents (`ResearchAgent.research_topic`, `ScriptwriterAgent.generate_script`,
  `WebResearchAgent.research_topic`) are embedded as pure functions of the
  provider response text, mirroring the JSON-extraction logic of
  `src/agents/researcher.py`, `src/agents/scriptwriter.py` and
  `src/agents/web_research_agent.py`.
* The orchestrator `ScriptService.generate_script` and its streaming
  variant are embedded as functions of an oracle environment supplying the
  outcomes of the external calls (provider calls, database commit).
-/

/-- Model of a Python JSON-like value.  `null` also stands for Python's
`None`.  Numbers are integers (see module comment). -/
inductive JValue where
  | null : JValue
  | bool (b : Bool) : JValue
  | num (n : Int) : JValue
  | str (s : String) : JValue
  | arr (elems : List JValue) : JValue
  | obj (fields : List (String × JValue)) : JValue
deriving Repr

/-- Opening brace character. -/
def braceOpen : Char := Char.ofNat 123

/-- Closing brace character. -/
def braceClose : Char := Char.ofNat 125

/-- JSON whitespace characters (as in Python's json module). -/
def isJsonWs (c : Char) : Bool :=
  c = ' ' || c = '\t' || c = '\n' || c = '\r'

/-- Drop leading JSON whitespace. -/
def skipWs : List Char → List Char
  | [] => []
  | c :: cs => if isJsonWs c then skipWs cs else c :: cs

/-- Translate a JSON string escape character.  (The `\u` escape is not
modelled; inputs containing it fail to parse.) -/
def escChar (c : Char) : Option Char :=
  if c = '"' then some '"'
  else if c = '\\' then some '\\'
  else if c = '/' then some '/'
  else if c = 'n' then some '\n'
  else if c = 't' then some '\t'
  else if c = 'r' then some '\r'
  else if c = 'b' then some (Char.ofNat 8)
  else if c = 'f' then some (Char.ofNat 12)
  else none

/-- Parse the characters of a JSON string literal after the opening quote,
returning the decoded characters and the rest of the input. -/
def parseStrChars : Nat → List Char → Option (List Char × List Char)
  | _, [] => none
  | 0, _ => none
  | fuel + 1, c :: cs =>
    if c = '"' then some ([], cs)
    else if c = '\\' then
      match cs with
      | [] => none
      | e :: cs2 =>
        match escChar e with
        | none => none
        | some d =>
          match parseStrChars fuel cs2 with
          | none => none
          | some (s, rest) => some (d :: s, rest)
    else
      match parseStrChars fuel cs with
      | none => none
      | some (s, rest) => some (c :: s, rest)

/-- Parse a nonempty run of decimal digits into a natural number. -/
def parseDigits : List Char → Option (Nat × List Char) :=
  fun cs =>
    let ds := cs.takeWhile Char.isDigit
    let rest := cs.dropWhile Char.isDigit
    if ds.isEmpty then none
    else some (ds.foldl (fun acc c => acc * 10 + c.toNat - '0'.toNat) 0, rest)

mutual

/-- Parse one JSON value (after optional leading whitespace). -/
def parseVal : Nat → List Char → Option (JValue × List Char)
  | 0, _ => none
  | fuel + 1, cs0 =>
    match skipWs cs0 with
    | [] => none
    | c :: rest =>
      if c = '"' then
        match parseStrChars fuel rest with
        | none => none
        | some (s, r) => some (.str (String.mk s), r)
      else if c = braceOpen then
        match skipWs rest with
        | [] => none
        | c2 :: r2 =>
          if c2 = braceClose then some (.obj [], r2)
          else
            match parseMembers fuel (c2 :: r2) with
            | none => none
            | some (ms, r3) => some (.obj ms, r3)
      else if c = '[' then
        match skipWs rest with
        | [] => none
        | c2 :: r2 =>
          if c2 = ']' then some (.arr [], r2)
          else
            match parseElems fuel (c2 :: r2) with
            | none => none
            | some (es, r3) => some (.arr es, r3)
      else if c = 't' then
        match rest with
        | 'r' :: 'u' :: 'e' :: r => some (.bool true, r)
        | _ => none
      else if c = 'f' then
        match rest with
        | 'a' :: 'l' :: 's' :: 'e' :: r => some (.bool false, r)
        | _ => none
      else if c = 'n' then
        match rest with
        | 'u' :: 'l' :: 'l' :: r => some (.null, r)
        | _ => none
      else if c = '-' then
        match parseDigits rest with
        | none => none
        | some (n, r) => some (.num (-(n : Int)), r)
      else if c.isDigit then
        match parseDigits (c :: rest) with
        | none => none
        | some (n, r) => some (.num (n : Int), r)
      else none

/-- Parse the members of a JSON object after the opening brace (at least
one member). -/
def parseMembers : Nat → List Char → Option (List (String × JValue) × List Char)
  | 0, _ => none
  | fuel + 1, cs =>
    match skipWs cs with
    | [] => none
    | c :: rest =>
      if c = '"' then
        match parseStrChars fuel rest with
        | none => none
        | some (k, r1) =>
          match skipWs r1 with
          | ':' :: r2 =>
            match parseVal fuel r2 with
            | none => none
            | some (v, r3) =>
              match skipWs r3 with
              | [] => none
              | c2 :: r4 =>
                if c2 = ',' then
                  match parseMembers fuel r4 with
                  | none => none
                  | some (ms, r5) => some ((String.mk k, v) :: ms, r5)
                else if c2 = braceClose then some ([(String.mk k, v)], r4)
                else none
          | _ => none
      else none

/-- Parse the elements of a JSON array after the opening bracket (at least
one element). -/
def parseElems : Nat → List Char → Option (List JValue × List Char)
  | 0, _ => none
  | fuel + 1, cs =>
    match parseVal fuel cs with
    | none => none
    | some (v, r) =>
      match skipWs r with
      | [] => none
      | c :: r2 =>
        if c = ',' then
          match parseElems fuel r2 with
          | none => none
          | some (es, r3) => some (v :: es, r3)
        else if c = ']' then some ([v], r2)
        else none

end

/-- Model of Python's `json.loads`: parse the entire string as one JSON
value, allowing surrounding whitespace; `none` models `json.JSONDecodeError`. -/
def json_loads (s : String) : Option JValue :=
  match parseVal (3 * s.length + 3) s.toList with
  | none => none
  | some (v, rest) => if skipWs rest = [] then some v else none

/-! ## Python string helpers (by characters, as Python indexes by code point) -/

/-- ASCII whitespace stripped by Python's `str.strip`. -/
def isPyWs (c : Char) : Bool :=
  c = ' ' || c = '\t' || c = '\n' || c = '\r' || c = Char.ofNat 11 || c = Char.ofNat 12

/-- Characters of `s.strip()`. -/
def stripChars (cs : List Char) : List Char :=
  ((cs.dropWhile isPyWs).reverse.dropWhile isPyWs).reverse

/-- Split a character list around the first occurrence of `pat`, returning
the part before and the part after; `none` when `pat` does not occur. -/
def splitFirst (pat : List Char) : List Char → Option (List Char × List Char)
  | [] => if pat.isEmpty then some ([], []) else none
  | c :: cs =>
    if pat.isPrefixOf (c :: cs) then some ([], (c :: cs).drop pat.length)
    else
      match splitFirst pat cs with
      | none => none
      | some (pre, post) => some (c :: pre, post)

/-- The part of `cs` before the first occurrence of `pat` (all of `cs` when
`pat` does not occur): Python's `cs.split(pat)[0]`. -/
def upToFirst (pat cs : List Char) : List Char :=
  match splitFirst pat cs with
  | some (pre, _) => pre
  | none => cs

/-- Python's `pat in s` substring test. -/
def strContains (s pat : String) : Bool :=
  (splitFirst pat.toList s.toList).isSome

/-- Python's `s.lower()` (ASCII case folding suffices for the validator
patterns). -/
def strLower (s : String) : String :=
  String.mk (s.toList.map Char.toLower)

/-- Python's `s[:n]` character slice. -/
def strTake (s : String) (n : Nat) : String :=
  String.mk (s.toList.take n)

/-! ## JSON extraction from LLM output (researcher.py / scriptwriter.py)

Mirrors the shared extraction logic:
```
if "```json" in content:
    content = content.split("```json")[1].split("```")[0].strip()
elif "```" in content:
    content = content.split("```")[1].split("```")[0].strip()
```
where `split(p)[1]` is the text between the first and second occurrence of
`p` (or everything after the first when `p` occurs once). -/
def extract_candidate (content : String) : String :=
  match splitFirst ("```json".toList) content.toList with
  | some (_, rest) =>
    String.mk (stripChars (upToFirst ("```".toList) (upToFirst ("```json".toList) rest)))
  | none =>
    match splitFirst ("```".toList) content.toList with
    | some (_, rest) =>
      String.mk (stripChars (upToFirst ("```".toList) rest))
    | none => content

/-! ## Provider adapter result and the two pipeline stages -/

/-- Result of `generate` on the provider adapter (base.py / openai_base.py):
extracted text content, token-usage dict, stop reason. -/
structure ProviderResponse where
  content : String
  usage : JValue
  stop_reason : String

/-- Python dict payload passed between stages (`Dict[str, Any]`). -/
abbrev PyDict := List (String × JValue)

/-- Python dict key assignment `d[k] = v`: overwrite in place when the key
exists, else append. -/
def setKey (d : PyDict) (k : String) (v : JValue) : PyDict :=
  if (d.lookup k).isSome then d.map (fun kv => if kv.1 = k then (k, v) else kv)
  else d ++ [(k, v)]

/-- Embeds `ResearchAgent.research_topic` (researcher.py lines 83-106) as a
function of the provider response: extract a JSON candidate, parse it,
attach `_meta` on success; on `JSONDecodeError` return the degraded record.
A successful parse of a non-dict value makes the `_meta` assignment raise
(`TypeError`), which is not caught there. -/
def ResearchAgent.research_topic (topic : String) (response : ProviderResponse) :
    Except String PyDict :=
  match json_loads (extract_candidate response.content) with
  | some (.obj fields) =>
    .ok (setKey fields "_meta"
      (.obj [("tokens_used", response.usage), ("stop_reason", .str response.stop_reason)]))
  | some _ => .error "TypeError"
  | none =>
    .ok [("topic", .str topic),
         ("research_summary", .str response.content),
         ("error", .str "JSON parsing failed"),
         ("_meta", response.usage)]

/-- Embeds `ScriptwriterAgent.generate_script` (scriptwriter.py lines
61-147) as a function of the provider response; the prompt-building part
only affects the outbound message, not the returned value. -/
def ScriptwriterAgent.generate_script (research_data : PyDict) (style duration : String)
    (_brand_voice : Option String) (response : ProviderResponse) : Except String PyDict :=
  let topic := (research_data.lookup "topic").getD (.str "Unknown topic")
  match json_loads (extract_candidate response.content) with
  | some (.obj fields) =>
    .ok (setKey fields "_meta"
      (.obj [("tokens_used", response.usage), ("stop_reason", .str response.stop_reason),
             ("style", .str style), ("duration", .str duration)]))
  | some _ => .error "TypeError"
  | none =>
    .ok [("title", topic),
         ("full_script", .str response.content),
         ("error", .str "JSON parsing failed"),
         ("_meta", response.usage)]

/-! ## Web-search research variant (web_research_agent.py) -/

/-- Degraded record of the web-search research variant (identical dict
literal in its `else` and `except` branches). -/
def webDegraded (topic : String) (response_text : String) : PyDict :=
  [("topic", .str topic),
   ("key_findings", .arr [.str (strTake response_text 500)]),
   ("statistics", .arr []),
   ("trending_angles", .arr []),
   ("hook_ideas", .arr []),
   ("sources", .arr []),
   ("research_summary", .str (strTake response_text 200))]

/-- Python's `s.find(c)` as an optional character index. -/
def findChar (cs : List Char) (c : Char) : Option Nat :=
  cs.findIdx? (fun x => x = c)

/-- Python's `s.rfind(c)` as an optional character index. -/
def rfindChar (cs : List Char) (c : Char) : Option Nat :=
  (cs.reverse.findIdx? (fun x => x = c)).map (fun j => cs.length - 1 - j)

/-- The brace-span JSON candidate of the web-search variant:
`response_text[start_idx:end_idx]` for `start_idx = find('\x7b')`,
`end_idx = rfind('\x7d') + 1`, provided `start_idx != -1 and
end_idx > start_idx`. -/
def web_json_candidate (response_text : String) : Option String :=
  let cs := response_text.toList
  match findChar cs braceOpen, rfindChar cs braceClose with
  | some i, some j =>
    if i < j + 1 then some (String.mk ((cs.drop i).take (j + 1 - i))) else none
  | some _, none => none
  | none, _ => none

/-- Embeds `WebResearchAgent.research_topic` (web_research_agent.py lines
99-131) as a function of the agent-run output text: parse the brace span
when present, otherwise (or on `JSONDecodeError`) return the degraded
record.  The parsed JSON value is returned as-is (no `_meta` is attached,
and a non-dict parse is returned unchanged). -/
def WebResearchAgent.research_topic (topic : String) (response_text : String) : JValue :=
  match web_json_candidate response_text with
  | some cand =>
    match json_loads cand with
    | some v => v
    | none => .obj (webDegraded topic response_text)
  | none => .obj (webDegraded topic response_text)

/-! ## Input validators (utils/validators.py) -/

/-- Spam patterns rejected by `validate_topic`, in source order. -/
def spam_patterns : List String := ["http://", "https://", "www.", "buy now", "click here"]

/-- Embeds `validate_topic`; the `Except` error carries the
`ValidationError` message. -/
def validate_topic (topic : String) : Except String Unit :=
  if topic.toList.isEmpty || (stripChars topic.toList).length < 5 then
    .error "Topic must be at least 5 characters long"
  else if topic.toList.length > 500 then
    .error "Topic cannot exceed 500 characters"
  else
    match spam_patterns.find? (fun p => strContains (strLower topic) p) with
    | some p => .error ("Topic contains invalid pattern: " ++ p)
    | none => .ok ()

/-- Embeds `validate_style`. -/
def validate_style (style : String) : Except String Unit :=
  if ["educational", "entertaining", "inspirational"].contains style then .ok ()
  else .error "Style must be one of: educational, entertaining, inspirational"

/-- Embeds `validate_duration`. -/
def validate_duration (duration : String) : Except String Unit :=
  if ["5-8 minutes", "8-10 minutes", "10-15 minutes", "15-20 minutes",
      "20-30 minutes"].contains duration then .ok ()
  else .error "Duration must be one of the five fixed buckets"

/-- Embeds `validate_research_depth`. -/
def validate_research_depth (depth : String) : Except String Unit :=
  if ["quick", "medium", "deep"].contains depth then .ok ()
  else .error "Research depth must be one of: quick, medium, deep"

/-- Embeds `validate_brand_voice` (`None` and the empty string are falsy). -/
def validate_brand_voice (brand_voice : Option String) : Except String Unit :=
  match brand_voice with
  | none => .ok ()
  | some bv =>
    if bv.toList.isEmpty then .ok ()
    else if bv.toList.length > 1000 then .error "Brand voice cannot exceed 1000 characters"
    else .ok ()

/-! ## Orchestrator (services/script_service.py) -/

/-- Caller-supplied generation request. -/
structure GenRequest where
  topic : String
  style : String
  duration : String
  research_depth : String
  brand_voice : Option String

/-- The five input validations, in source order (script_service.py lines
62-67). -/
def validateAll (req : GenRequest) : Except String Unit :=
  match validate_topic req.topic with
  | .error m => .error m
  | .ok _ =>
    match validate_style req.style with
    | .error m => .error m
    | .ok _ =>
      match validate_duration req.duration with
      | .error m => .error m
      | .ok _ =>
        match validate_research_depth req.research_depth with
        | .error m => .error m
        | .ok _ => validate_brand_voice req.brand_voice

/-- Oracle for the external effects of one orchestrator run: the outcome of
the research-stage call, the outcome of the script-stage call (both stage
implementations return a `Dict[str, Any]` on every non-raising path),
whether the database commit succeeds, and the ambient quantities (wall
clock, row id, creation timestamp). -/
structure GenEnv where
  researchOutcome : Except String PyDict
  scriptOutcome : Except String PyDict
  commitOk : Bool
  generation_time : Int
  created_at : String
  script_id : String

/-- Error taxonomy of the pipeline (utils/exceptions.py plus the
uncaught-exception path). -/
inductive PErr where
  | validation (msg : String)
  | research (msg : String)
  | scriptGen (msg : String)
  | generic (msg : String)
deriving Repr, DecidableEq

/-- Python `d.get(k, default)` on a dict. -/
def dgetD (d : PyDict) (k : String) (v : JValue) : JValue :=
  (d.lookup k).getD v

/-- Python `.get(k, default)` on an arbitrary value: non-dict receivers
raise `AttributeError`. -/
def pyGetD (v : JValue) (k : String) (default : JValue) : Except String JValue :=
  match v with
  | .obj fields => .ok ((fields.lookup k).getD default)
  | _ => .error "AttributeError"

/-- Operand of Python integer `+`: ints and bools add, anything else raises
`TypeError`. -/
def pyToInt (v : JValue) : Except String Int :=
  match v with
  | .num n => .ok n
  | .bool b => .ok (if b then 1 else 0)
  | _ => .error "TypeError"

/-- Python truthiness of a JSON-like value. -/
def jtruthy (v : JValue) : Bool :=
  match v with
  | .null => false
  | .bool b => b
  | .num n => n != 0
  | .str s => !s.toList.isEmpty
  | .arr es => !es.isEmpty
  | .obj fs => !fs.isEmpty

/-- Python `len()` of a JSON-like value. -/
def pyLen (v : JValue) : Except String Int :=
  match v with
  | .str s => .ok s.toList.length
  | .arr es => .ok es.length
  | .obj fs => .ok fs.length
  | _ => .error "TypeError"

/-- Embeds the aggregate-token computation (script_service.py lines
103-112): `research_data.get("_meta", {}).get("tokens_used", {})` and the
sum of the four `.get(..., 0)` counters. -/
def tokensTotal (research_data script_data : PyDict) : Except String Int := do
  let research_tokens ← pyGetD (dgetD research_data "_meta" (.obj [])) "tokens_used" (.obj [])
  let script_tokens ← pyGetD (dgetD script_data "_meta" (.obj [])) "tokens_used" (.obj [])
  let ri ← pyGetD research_tokens "input_tokens" (.num 0) >>= pyToInt
  let ro ← pyGetD research_tokens "output_tokens" (.num 0) >>= pyToInt
  let si ← pyGetD script_tokens "input_tokens" (.num 0) >>= pyToInt
  let so ← pyGetD script_tokens "output_tokens" (.num 0) >>= pyToInt
  return ri + ro + si + so

/-- A persisted `Script` row (models/database.py fields set by the
orchestrator, script_service.py lines 117-134). -/
structure ScriptRow where
  script_id : String
  topic : String
  style : String
  duration : String
  research_data : PyDict
  sources : JValue
  title : JValue
  description : JValue
  keywords : JValue
  full_script : JValue
  script_sections : JValue
  estimated_duration : JValue
  tone : JValue
  target_audience : JValue
  tokens_used : Int
  generation_time : Int
  created_at : String

/-- Construction of the `Script` row (script_service.py lines 117-134). -/
def mkScriptRow (env : GenEnv) (req : GenRequest) (research_data script_data : PyDict)
    (total_tokens : Int) : ScriptRow :=
  { script_id := env.script_id
    topic := req.topic
    style := req.style
    duration := req.duration
    research_data := research_data
    sources := dgetD research_data "sources" (.arr [])
    title := dgetD script_data "title" .null
    description := dgetD script_data "description" .null
    keywords := dgetD script_data "keywords" (.arr [])
    full_script := dgetD script_data "full_script" (.str "")
    script_sections := dgetD script_data "script" (.obj [])
    estimated_duration := dgetD script_data "estimated_duration" .null
    tone := dgetD script_data "tone" .null
    target_audience := dgetD script_data "target_audience" .null
    tokens_used := total_tokens
    generation_time := env.generation_time
    created_at := env.created_at }

/-- Embeds `ScriptService._build_response` (script_service.py lines
330-367). -/
def build_response (script_record : ScriptRow) (research_data script_data : PyDict) : JValue :=
  let script_sections := dgetD script_data "script" (.obj [])
  let sectionGet := fun (k : String) =>
    match script_sections with
    | .obj fs => (fs.lookup k).getD .null
    | _ => .null
  let body :=
    match script_sections with
    | .obj fs => (fs.lookup "body").getD (.arr [])
    | _ => .arr []
  .obj
    [("script_id", .str script_record.script_id),
     ("topic", .str script_record.topic),
     ("title", dgetD script_data "title" .null),
     ("description", dgetD script_data "description" .null),
     ("keywords", dgetD script_data "keywords" (.arr [])),
     ("hook", sectionGet "hook"),
     ("intro", sectionGet "intro"),
     ("body", body),
     ("conclusion", sectionGet "conclusion"),
     ("full_script", dgetD script_data "full_script" (.str "")),
     ("estimated_duration", dgetD script_data "estimated_duration" .null),
     ("tone", dgetD script_data "tone" .null),
     ("target_audience", dgetD script_data "target_audience" .null),
     ("sources", dgetD research_data "sources" (.arr [])),
     ("key_findings", dgetD research_data "key_findings" (.arr [])),
     ("tokens_used", .num script_record.tokens_used),
     ("generation_time", .num script_record.generation_time),
     ("created_at", .str script_record.created_at)]

/-- Result of one orchestrator run: outcome, number of provider (stage)
calls made, and the rows committed to the database. -/
structure GenResult where
  result : Except PErr JValue
  providerCalls : Nat
  dbWrites : List ScriptRow

/-- Embeds `ScriptService.generate_script` (script_service.py lines
39-148): validate, research, research-result check, script, script-result
check, token aggregation, persist, build response.  Any exception raised
after a step rolls the transaction back, so failing runs commit nothing. -/
def ScriptService.generate_script (env : GenEnv) (req : GenRequest) : GenResult :=
  match validateAll req with
  | .error m => ⟨.error (.validation m), 0, []⟩
  | .ok _ =>
    match env.researchOutcome with
    | .error m => ⟨.error (.research ("Research phase failed: " ++ m)), 1, []⟩
    | .ok research_data =>
      if research_data.isEmpty || (research_data.lookup "error").isSome then
        ⟨.error (.research "Failed to gather sufficient research data"), 1, []⟩
      else
        match env.scriptOutcome with
        | .error m => ⟨.error (.scriptGen ("Script generation failed: " ++ m)), 2, []⟩
        | .ok script_data =>
          if script_data.isEmpty || !jtruthy (dgetD script_data "full_script" .null) then
            ⟨.error (.scriptGen "Failed to generate valid script"), 2, []⟩
          else
            match tokensTotal research_data script_data with
            | .error m => ⟨.error (.generic m), 2, []⟩
            | .ok total_tokens =>
              let row := mkScriptRow env req research_data script_data total_tokens
              if env.commitOk then
                ⟨.ok (build_response row research_data script_data), 2, [row]⟩
              else
                ⟨.error (.generic "commit failed"), 2, []⟩

/-- Server-sent event of the streaming variant. -/
inductive SEvent where
  | progress (step : String) (message : String) (pct : Nat)
  | complete (message : String) (data : JValue)
  | error (message : String)
deriving Repr

/-- Embeds `ScriptService.generate_script_stream` (script_service.py lines
150-291) as the list of events the generator yields.  Unlike the batch
variant it performs no research-result or script-result checks; every
raised exception is converted into a terminal error event. -/
def ScriptService.generate_script_stream (env : GenEnv) (req : GenRequest) : List SEvent :=
  match validateAll req with
  | .error m => [.error m]
  | .ok _ =>
    let e1 := SEvent.progress "research" "Searching the web for current information..." 10
    match env.researchOutcome with
    | .error m => [e1, .error ("Research failed: " ++ m)]
    | .ok research_data =>
      match pyLen (dgetD research_data "sources" (.arr [])) with
      | .error m => [e1, .error m]
      | .ok n =>
        let e2 := SEvent.progress "research" ("Found " ++ toString n ++ " sources") 33
        let e3 := SEvent.progress "analysis" "Analyzing research and synthesizing insights..." 50
        let e4 := SEvent.progress "writing" "Writing your professional YouTube script..." 66
        match env.scriptOutcome with
        | .error m => [e1, e2, e3, e4, .error ("Script generation failed: " ++ m)]
        | .ok script_data =>
          let e5 := SEvent.progress "writing" "Finalizing your script..." 90
          match tokensTotal research_data script_data with
          | .error m => [e1, e2, e3, e4, e5, .error m]
          | .ok total_tokens =>
            let row := mkScriptRow env req research_data script_data total_tokens
            if env.commitOk then
              [e1, e2, e3, e4, e5,
               .complete "Script generated successfully!"
                 (build_response row research_data script_data)]
            else
              [e1, e2, e3, e4, e5, .error "commit failed"]

/-- Python dict-style get on a JSON value (no default). -/
def jget (v : JValue) (k : String) : Option JValue :=
  match v with
  | .obj fields => fields.lookup k
  | _ => none

/-- Spec-side description of the fenced content: text strictly between the
first "```json" marker and the following "```" marker, stripped. -/
def fencedSegment (content : String) : String :=
  match splitFirst ("```json".toList) content.toList with
  | some (_, rest) =>
    String.mk (stripChars (upToFirst ("```".toList) (upToFirst ("```json".toList) rest)))
  | none => ""

/-- Whether a streaming event is an error event. -/
def isErrorEvent : SEvent → Bool
  | .error _ => true
  | _ => false

/-- In an event list, an error event only ever occurs as the final
element: nothing is emitted after an error. -/
def errorTerminal (events : List SEvent) : Prop :=
  ∀ i m, events[i]? = some (.error m) → i + 1 = events.length

def rdSample : PyDict :=
  [("topic", .str "How AI is changing software engineering"),
   ("key_findings", .arr [.str "f1"]),
   ("sources", .arr [.obj [("title", .str "s1"), ("url", .str "u1")]]),
   ("research_summary", .str "summary"),
   ("_meta", .obj [("tokens_used",
      .obj [("input_tokens", .num 100), ("output_tokens", .num 200)]),
      ("stop_reason", .str "end_turn")])]

def sdSample : PyDict :=
  [("title", .str "T"), ("description", .str "D"), ("keywords", .arr [.str "k"]),
   ("script", .obj [("hook", .str "H"), ("intro", .str "I"), ("body", .arr []),
      ("conclusion", .str "C")]),
   ("full_script", .str "Full script text"),
   ("estimated_duration", .str "10-12 minutes"), ("tone", .str "educational"),
   ("target_audience", .str "devs"),
   ("_meta", .obj [("tokens_used",
      .obj [("input_tokens", .num 300), ("output_tokens", .num 400)]),
      ("stop_reason", .str "end_turn")])]

def envSample : GenEnv :=
  { researchOutcome := .ok rdSample, scriptOutcome := .ok sdSample, commitOk := true,
    generation_time := 2, created_at := "2026-01-01T00:00:00", script_id := "id-1" }

def reqSample : GenRequest :=
  { topic := "How AI is changing software engineering", style := "educational",
    duration := "10-15 minutes", research_depth := "medium", brand_voice := none }

def reqShortTopic : GenRequest :=
  { topic := "hi", style := "educational", duration := "10-15 minutes",
    research_depth := "medium", brand_voice := none }

/-! ## Sanity checks on concrete inputs -/

example : json_loads "\x7b\"a\": 1\x7d" = some (.obj [("a", .num 1)]) := by rfl

example : json_loads "Note: \x7b\"a\": 1\x7d" = none := by rfl

example : json_loads " \x7b\"a\": [1, -2], \"b\": \x7b\x7d, \"c\": null\x7d " =
    some (.obj [("a", .arr [.num 1, .num (-2)]), ("b", .obj []), ("c", .null)]) := by rfl

example : extract_candidate "pre ```json \x7b\"a\": 1\x7d ``` post" = "\x7b\"a\": 1\x7d" := by rfl

example : extract_candidate "no fences here" = "no fences here" := by rfl

example : validate_topic "hi" = .error "Topic must be at least 5 characters long" := by rfl

example : validate_topic "Visit WWW.example for more" =
    .error "Topic contains invalid pattern: www." := by rfl

example : validate_topic "How AI is changing software engineering" = .ok () := by rfl

/-! ## Supporting lemmas -/

lemma validate_topic_ok_inv (topic : String) (h : validate_topic topic = .ok ()) :
    5 ≤ (stripChars topic.toList).length ∧
    ∀ p ∈ spam_patterns, strContains (strLower topic) p = false := by
  unfold validate_topic at h
  split at h
  · simp at h
  · split at h
    · simp at h
    · rename_i h1 h2
      constructor
      · simp only [Bool.or_eq_true, not_or, decide_eq_true_eq] at h1
        omega
      · intro p hp
        split at h
        · simp at h
        · rename_i hnone
          have := List.find?_eq_none.mp hnone p hp
          simpa using this

lemma validateAll_ok_inv (req : GenRequest) (h : validateAll req = .ok ()) :
    validate_topic req.topic = .ok () ∧ validate_style req.style = .ok () ∧
    validate_duration req.duration = .ok () ∧
    validate_research_depth req.research_depth = .ok () ∧
    validate_brand_voice req.brand_voice = .ok () := by
  unfold validateAll at h
  split at h
  · simp at h
  · split at h
    · simp at h
    · split at h
      · simp at h
      · split at h
        · simp at h
        · rename_i h1 h2 h3 h4
          refine ⟨?_, ?_, ?_, ?_, h⟩ <;> rename_i hu1 <;> (cases hu1; assumption)

lemma validateAll_error_of_not_all (req : GenRequest)
    (h : ¬(validate_topic req.topic = .ok () ∧ validate_style req.style = .ok () ∧
           validate_duration req.duration = .ok () ∧
           validate_research_depth req.research_depth = .ok () ∧
           validate_brand_voice req.brand_voice = .ok ())) :
    ∃ m, validateAll req = .error m := by
  cases hv : validateAll req with
  | error m => exact ⟨m, rfl⟩
  | ok u => cases u; exact absurd (validateAll_ok_inv req hv) h

lemma exceptBind_ok {ε α β : Type} (a : α) (f : α → Except ε β) :
    (Except.ok a : Except ε α) >>= f = f a := rfl

lemma isPrefixOf_trans_bool : ∀ (a b c : List Char), a.isPrefixOf b = true →
    b.isPrefixOf c = true → a.isPrefixOf c = true := by
  intro a
  induction a with
  | nil => intro b c h1 h2; cases c <;> rfl
  | cons x xs ih =>
    intro b c h1 h2
    cases b with
    | nil => simp only [List.isPrefixOf] at h1; exact absurd h1 (by simp)
    | cons y ys =>
      cases c with
      | nil => simp only [List.isPrefixOf] at h2; exact absurd h2 (by simp)
      | cons z zs =>
        simp only [List.isPrefixOf, Bool.and_eq_true, beq_iff_eq] at h1 h2 ⊢
        obtain ⟨hxy, h1a⟩ := h1
        obtain ⟨hyz, h2a⟩ := h2
        exact ⟨hxy.trans hyz, ih ys zs h1a h2a⟩

lemma splitFirst_isSome_of_prefixOf (pat1 pat2 : List Char)
    (hp : pat1.isPrefixOf pat2 = true) :
    ∀ cs, (splitFirst pat2 cs).isSome = true → (splitFirst pat1 cs).isSome = true := by
  intro cs
  induction cs with
  | nil =>
    intro h
    simp only [splitFirst] at h ⊢
    split at h
    · rename_i h2
      have hp2 : pat2 = [] := by simpa using h2
      subst hp2
      have hp1 : pat1 = [] := by
        cases pat1 with
        | nil => rfl
        | cons x xs => simp [List.isPrefixOf] at hp
      simp [hp1]
    · simp at h
  | cons c cs ih =>
    intro h
    simp only [splitFirst] at h ⊢
    by_cases h1 : pat1.isPrefixOf (c :: cs) = true
    · simp [h1]
    · have h2 : pat2.isPrefixOf (c :: cs) = false := by
        by_contra hc
        rw [Bool.not_eq_false] at hc
        exact h1 (isPrefixOf_trans_bool pat1 pat2 (c :: cs) hp hc)
      rw [h2] at h
      rw [Bool.not_eq_true] at h1
      rw [h1]
      simp only [Bool.false_eq_true, if_false] at h ⊢
      cases hs : splitFirst pat2 cs with
      | none => rw [hs] at h; simp at h
      | some pr =>
        rw [hs] at h
        have := ih (by rw [hs]; rfl)
        cases ht : splitFirst pat1 cs with
        | none => rw [ht] at this; simp at this
        | some pr2 => simp

lemma extract_candidate_of_fence (content : String)
    (h : strContains content "```json" = true) :
    extract_candidate content = fencedSegment content := by
  unfold strContains at h
  unfold extract_candidate fencedSegment
  cases heq : splitFirst ("```json".toList) content.toList with
  | none => rw [heq] at h; simp at h
  | some pr => obtain ⟨a, rest⟩ := pr; rfl

lemma extract_candidate_no_fence (content : String)
    (h : strContains content "```" = false) :
    extract_candidate content = content := by
  unfold strContains at h
  have hfj : splitFirst ("```json".toList) content.toList = none := by
    cases heq : splitFirst ("```json".toList) content.toList with
    | none => rfl
    | some pr =>
      have hpre : ("```".toList).isPrefixOf ("```json".toList) = true := by decide
      have := splitFirst_isSome_of_prefixOf _ _ hpre content.toList (by rw [heq]; rfl)
      rw [this] at h
      exact absurd h (by simp)
  have ht : splitFirst ("```".toList) content.toList = none := by
    cases heq : splitFirst ("```".toList) content.toList with
    | none => rfl
    | some pr => rw [heq] at h; simp at h
  unfold extract_candidate
  rw [hfj, ht]

lemma errorTerminal_nil : errorTerminal [] := by
  intro i m h
  simp at h

lemma errorTerminal_single_error (m' : String) : errorTerminal [.error m'] := by
  intro i m h
  cases i with
  | zero => rfl
  | succ j => simp at h

lemma errorTerminal_cons (e : SEvent) (t : List SEvent)
    (he : isErrorEvent e = false) (ht : errorTerminal t) : errorTerminal (e :: t) := by
  intro i m h
  cases i with
  | zero =>
    simp at h
    rw [h] at he
    simp [isErrorEvent] at he
  | succ j =>
    simp at h
    have := ht j m h
    simp only [List.length_cons]
    omega

/-! ## Claims -/

/-- Claim C1: on a successful run in which both stages return parsed dicts
carrying a _meta.tokens_used block, the unified response's tokens_used is
the sum of the four counters (a missing counter counts as zero), its
full_script equals the script stage's full_script, and its sources equals
the research result's sources. -/
theorem generate_script_success_response (env : GenEnv) (req : GenRequest)
    (rd sd rm rt sm st : PyDict) (ri ro si so : Int) (fs : String) (srcs : JValue)
    (hva : validateAll req = .ok ())
    (hr : env.researchOutcome = .ok rd)
    (hs : env.scriptOutcome = .ok sd)
    (hc : env.commitOk = true)
    (hrne : rd ≠ []) (hre : rd.lookup "error" = none)
    (hfs : sd.lookup "full_script" = some (.str fs)) (hfsne : fs ≠ "")
    (hrm : rd.lookup "_meta" = some (.obj rm))
    (hrt : rm.lookup "tokens_used" = some (.obj rt))
    (hsm : sd.lookup "_meta" = some (.obj sm))
    (hst : sm.lookup "tokens_used" = some (.obj st))
    (hri : (rt.lookup "input_tokens").getD (.num 0) = .num ri)
    (hro : (rt.lookup "output_tokens").getD (.num 0) = .num ro)
    (hsi : (st.lookup "input_tokens").getD (.num 0) = .num si)
    (hso : (st.lookup "output_tokens").getD (.num 0) = .num so)
    (hsrc : rd.lookup "sources" = some srcs) :
    ∃ resp, (ScriptService.generate_script env req).result = .ok resp ∧
      jget resp "tokens_used" = some (.num (ri + ro + si + so)) ∧
      jget resp "full_script" = some (.str fs) ∧
      jget resp "sources" = some srcs := by
  have hsne : sd ≠ [] := by
    intro h; rw [h] at hfs; simp [List.lookup] at hfs
  have hfl : fs.toList ≠ [] := by
    intro hl
    apply hfsne
    cases fs with
    | mk data => simp [String.toList] at hl; subst hl; rfl
  have hrcond : (rd.isEmpty || (rd.lookup "error").isSome) = false := by
    cases rd with
    | nil => exact absurd rfl hrne
    | cons a l => simp [hre]
  have hjt : jtruthy (dgetD sd "full_script" JValue.null) = true := by
    simp only [dgetD, hfs, Option.getD_some, jtruthy]
    cases hft : fs.toList with
    | nil => exact absurd hft hfl
    | cons c cs => rfl
  have hscond : (sd.isEmpty || !jtruthy (dgetD sd "full_script" JValue.null)) = false := by
    rw [hjt]
    cases sd with
    | nil => exact absurd rfl hsne
    | cons a l => rfl
  have htok : tokensTotal rd sd = .ok (ri + ro + si + so) := by
    simp [tokensTotal, dgetD, hrm, hsm, pyGetD, hrt, hst, exceptBind_ok, hri, hro, hsi, hso,
      pyToInt]
  refine ⟨build_response (mkScriptRow env req rd sd (ri + ro + si + so)) rd sd, ?_, ?_, ?_, ?_⟩
  · simp [ScriptService.generate_script, hva, hr, hrcond, hs, hscond, htok, hc]
  · simp [ScriptService.generate_script, hva, hr, hrcond, hs, hscond, htok, hc,
      build_response, jget, mkScriptRow, List.lookup]
  · simp [ScriptService.generate_script, hva, hr, hrcond, hs, hscond, htok, hc,
      build_response, jget, mkScriptRow, List.lookup, dgetD, hfs]
  · simp [ScriptService.generate_script, hva, hr, hrcond, hs, hscond, htok, hc,
      build_response, jget, mkScriptRow, List.lookup, dgetD, hsrc]

theorem generate_script_success_witness :
    ∃ resp, (ScriptService.generate_script envSample reqSample).result = .ok resp ∧
      jget resp "tokens_used" = some (.num (100 + 200 + 300 + 400)) ∧
      jget resp "full_script" = some (.str "Full script text") ∧
      jget resp "sources" = some (.arr [.obj [("title", .str "s1"), ("url", .str "u1")]]) :=
  generate_script_success_response envSample reqSample rdSample sdSample
    [("tokens_used", .obj [("input_tokens", .num 100), ("output_tokens", .num 200)]),
     ("stop_reason", .str "end_turn")]
    [("input_tokens", .num 100), ("output_tokens", .num 200)]
    [("tokens_used", .obj [("input_tokens", .num 300), ("output_tokens", .num 400)]),
     ("stop_reason", .str "end_turn")]
    [("input_tokens", .num 300), ("output_tokens", .num 400)]
    100 200 300 400 "Full script text"
    (.arr [.obj [("title", .str "s1"), ("url", .str "u1")]])
    (by rfl) rfl rfl rfl (fun h => List.noConfusion h) rfl rfl (by decide)
    rfl rfl rfl rfl rfl rfl rfl rfl rfl

/-- Claim C2 (counterexample): a response whose text is raw JSON
surrounded by prose (no fences) makes the stage degrade, although the
substring between the first brace and the last brace parses as JSON. -/
theorem research_no_span_fallback_counterexample :
    web_json_candidate "The result: \x7b\"a\": 1\x7d" = some "\x7b\"a\": 1\x7d" ∧
    json_loads "\x7b\"a\": 1\x7d" = some (.obj [("a", .num 1)]) ∧
    ResearchAgent.research_topic "t" ⟨"The result: \x7b\"a\": 1\x7d", .obj [], "end"⟩ =
      .ok [("topic", .str "t"),
           ("research_summary", .str "The result: \x7b\"a\": 1\x7d"),
           ("error", .str "JSON parsing failed"),
           ("_meta", .obj [])] :=
  ⟨rfl, rfl, rfl⟩

/-- Claim C2 (amended): fenced extraction returns exactly the parsed
fenced segment; with no fences the whole text must parse as JSON, else the
stage degrades — there is no brace-span fallback in this stage. -/
theorem research_extraction_policy (topic : String) (resp : ProviderResponse) :
    (∀ fields, strContains resp.content "```json" = true →
      json_loads (fencedSegment resp.content) = some (.obj fields) →
      ResearchAgent.research_topic topic resp =
        .ok (setKey fields "_meta"
          (.obj [("tokens_used", resp.usage), ("stop_reason", .str resp.stop_reason)]))) ∧
    (∀ fields, strContains resp.content "```" = false →
      json_loads resp.content = some (.obj fields) →
      ResearchAgent.research_topic topic resp =
        .ok (setKey fields "_meta"
          (.obj [("tokens_used", resp.usage), ("stop_reason", .str resp.stop_reason)]))) ∧
    (strContains resp.content "```" = false →
      json_loads resp.content = none →
      ResearchAgent.research_topic topic resp =
        .ok [("topic", .str topic), ("research_summary", .str resp.content),
             ("error", .str "JSON parsing failed"), ("_meta", resp.usage)]) := by
  refine ⟨?_, ?_, ?_⟩
  · intro fields hf hp
    rw [ResearchAgent.research_topic, extract_candidate_of_fence _ hf, hp]
  · intro fields hf hp
    rw [ResearchAgent.research_topic, extract_candidate_no_fence _ hf, hp]
  · intro hf hp
    rw [ResearchAgent.research_topic, extract_candidate_no_fence _ hf, hp]

theorem research_extraction_policy_witness :
    ResearchAgent.research_topic "t" ⟨"x ```json \x7b\"a\": 1\x7d ``` y", .obj [], "end"⟩ =
      .ok (setKey [("a", .num 1)] "_meta"
        (.obj [("tokens_used", .obj []), ("stop_reason", .str "end")])) :=
  (research_extraction_policy "t" _).1 [("a", .num 1)] (by rfl) (by rfl)

/-- Claim C3: a research-stage result that is empty or contains an
"error" key makes the orchestrator raise a ResearchError and commit no
database row. -/
theorem generate_script_research_error_no_write (env : GenEnv) (req : GenRequest) (rd : PyDict)
    (hva : validateAll req = .ok ())
    (hr : env.researchOutcome = .ok rd)
    (h : rd = [] ∨ (rd.lookup "error").isSome = true) :
    (ScriptService.generate_script env req).result =
        .error (.research "Failed to gather sufficient research data") ∧
    (ScriptService.generate_script env req).dbWrites = [] := by
  have hcond : (rd.isEmpty || (rd.lookup "error").isSome) = true := by
    rcases h with h | h
    · subst h; rfl
    · simp [h]
  simp [ScriptService.generate_script, hva, hr, hcond]

theorem generate_script_research_error_witness :
    (ScriptService.generate_script
        { envSample with researchOutcome := .ok [("error", .str "boom")] } reqSample).result =
      .error (.research "Failed to gather sufficient research data") ∧
    (ScriptService.generate_script
        { envSample with researchOutcome := .ok [("error", .str "boom")] } reqSample).dbWrites = [] :=
  generate_script_research_error_no_write _ _ [("error", .str "boom")] (by rfl) rfl
    (Or.inr (by rfl))

/-- Claim C4: a script-stage result that is empty, or whose full_script
field is absent or empty, makes the orchestrator raise a
ScriptGenerationError and commit no database row. -/
theorem generate_script_script_error_no_write (env : GenEnv) (req : GenRequest) (rd sd : PyDict)
    (hva : validateAll req = .ok ())
    (hr : env.researchOutcome = .ok rd)
    (hrne : rd ≠ []) (hre : rd.lookup "error" = none)
    (hs : env.scriptOutcome = .ok sd)
    (h : sd = [] ∨ sd.lookup "full_script" = none ∨ sd.lookup "full_script" = some (.str "")) :
    (ScriptService.generate_script env req).result =
        .error (.scriptGen "Failed to generate valid script") ∧
    (ScriptService.generate_script env req).dbWrites = [] := by
  have hrcond : (rd.isEmpty || (rd.lookup "error").isSome) = false := by
    cases rd with
    | nil => exact absurd rfl hrne
    | cons a l => simp [hre]
  have hscond : (sd.isEmpty || !jtruthy (dgetD sd "full_script" .null)) = true := by
    rcases h with h | h | h
    · subst h; rfl
    · simp [dgetD, h, jtruthy]
    · simp [dgetD, h, jtruthy]
  simp [ScriptService.generate_script, hva, hr, hrcond, hs, hscond]

theorem generate_script_script_error_witness :
    (ScriptService.generate_script
        { envSample with scriptOutcome := .ok [("full_script", .str "")] } reqSample).result =
      .error (.scriptGen "Failed to generate valid script") ∧
    (ScriptService.generate_script
        { envSample with scriptOutcome := .ok [("full_script", .str "")] } reqSample).dbWrites = [] :=
  generate_script_script_error_no_write _ _ rdSample [("full_script", .str "")] (by rfl) rfl
    (by simp [rdSample]) (by rfl) rfl (Or.inr (Or.inr (by rfl)))

/-- Claim C5: a provider response whose content cannot be parsed as JSON
makes both stages return a degraded record carrying the raw text and an
error marker, with no exception escaping the stage. -/
theorem stages_degrade_on_unparsable (topic : String) (resp : ProviderResponse)
    (research_data : PyDict) (style duration : String) (bv : Option String)
    (h : json_loads (extract_candidate resp.content) = none) :
    (∃ d, ResearchAgent.research_topic topic resp = .ok d ∧
       d.lookup "research_summary" = some (.str resp.content) ∧
       (d.lookup "error").isSome = true) ∧
    (∃ d, ScriptwriterAgent.generate_script research_data style duration bv resp = .ok d ∧
       d.lookup "full_script" = some (.str resp.content) ∧
       (d.lookup "error").isSome = true) := by
  constructor
  · exact ⟨[("topic", .str topic), ("research_summary", .str resp.content),
       ("error", .str "JSON parsing failed"), ("_meta", resp.usage)],
       by simp only [ResearchAgent.research_topic, h], rfl, rfl⟩
  · exact ⟨[("title", (research_data.lookup "topic").getD (.str "Unknown topic")),
       ("full_script", .str resp.content),
       ("error", .str "JSON parsing failed"), ("_meta", resp.usage)],
       by simp only [ScriptwriterAgent.generate_script, h], rfl, rfl⟩

theorem stages_degrade_witness :
    (∃ d, ResearchAgent.research_topic "t" ⟨"not json", .obj [], "end"⟩ = .ok d ∧
       d.lookup "research_summary" = some (.str "not json") ∧
       (d.lookup "error").isSome = true) ∧
    (∃ d, ScriptwriterAgent.generate_script [] "educational" "10-15 minutes" none
         ⟨"not json", .obj [], "end"⟩ = .ok d ∧
       d.lookup "full_script" = some (.str "not json") ∧
       (d.lookup "error").isSome = true) :=
  stages_degrade_on_unparsable "t" ⟨"not json", .obj [], "end"⟩ [] "educational"
    "10-15 minutes" none (by rfl)

/-- Claim C6: a failing input validation short-circuits the whole
pipeline: the run fails with a ValidationError, makes no provider call and
commits no database row. -/
theorem generate_script_invalid_input_short_circuits (env : GenEnv) (req : GenRequest)
    (h : ¬(validate_topic req.topic = .ok () ∧ validate_style req.style = .ok () ∧
           validate_duration req.duration = .ok () ∧
           validate_research_depth req.research_depth = .ok () ∧
           validate_brand_voice req.brand_voice = .ok ())) :
    ∃ m, ScriptService.generate_script env req =
      ⟨.error (.validation m), 0, []⟩ := by
  obtain ⟨m, hm⟩ := validateAll_error_of_not_all req h
  exact ⟨m, by simp [ScriptService.generate_script, hm]⟩

theorem generate_script_invalid_input_witness :
    ∃ m, ScriptService.generate_script envSample reqShortTopic =
      ⟨.error (.validation m), 0, []⟩ :=
  generate_script_invalid_input_short_circuits envSample reqShortTopic
    (fun hc => Except.noConfusion hc.1)

/-- Claim C7: every topic whose stripped length is under 5 characters is
rejected by validate_topic, and every topic containing one of the five spam
patterns case-insensitively is rejected by validate_topic. -/
theorem validate_topic_rejects (topic : String)
    (h : (stripChars topic.toList).length < 5 ∨
         ∃ p ∈ spam_patterns, strContains (strLower topic) p = true) :
    ∃ m, validate_topic topic = .error m := by
  cases hv : validate_topic topic with
  | error m => exact ⟨m, rfl⟩
  | ok u =>
    exfalso
    obtain ⟨hlen, hpat⟩ := validate_topic_ok_inv topic (by cases u; exact hv)
    rcases h with hshort | ⟨p, hp, hc⟩
    · omega
    · rw [hpat p hp] at hc; exact Bool.false_ne_true hc

theorem validate_topic_rejects_witness :
    ((stripChars "hi".toList).length < 5 ∨
       ∃ p ∈ spam_patterns, strContains (strLower "hi") p = true) ∧
    ∃ m, validate_topic "hi" = .error m :=
  ⟨Or.inl (by decide), validate_topic_rejects "hi" (Or.inl (by decide))⟩

/-- Claim C8: the streaming variant never emits an event after an error
event: an error event is always the final element of the stream. -/
theorem stream_error_event_is_terminal (env : GenEnv) (req : GenRequest) :
    errorTerminal (ScriptService.generate_script_stream env req) := by
  simp only [ScriptService.generate_script_stream]
  split
  · exact errorTerminal_single_error _
  · split
    · exact errorTerminal_cons _ _ (by rfl) (errorTerminal_single_error _)
    · split
      · exact errorTerminal_cons _ _ (by rfl) (errorTerminal_single_error _)
      · split
        · exact errorTerminal_cons _ _ (by rfl) (errorTerminal_cons _ _ (by rfl)
            (errorTerminal_cons _ _ (by rfl) (errorTerminal_cons _ _ (by rfl)
              (errorTerminal_single_error _))))
        · split
          · exact errorTerminal_cons _ _ (by rfl) (errorTerminal_cons _ _ (by rfl)
              (errorTerminal_cons _ _ (by rfl) (errorTerminal_cons _ _ (by rfl)
                (errorTerminal_cons _ _ (by rfl) (errorTerminal_single_error _)))))
          · split
            · exact errorTerminal_cons _ _ (by rfl) (errorTerminal_cons _ _ (by rfl)
                (errorTerminal_cons _ _ (by rfl) (errorTerminal_cons _ _ (by rfl)
                  (errorTerminal_cons _ _ (by rfl) (errorTerminal_cons _ _ (by rfl)
                    errorTerminal_nil)))))
            · exact errorTerminal_cons _ _ (by rfl) (errorTerminal_cons _ _ (by rfl)
                (errorTerminal_cons _ _ (by rfl) (errorTerminal_cons _ _ (by rfl)
                  (errorTerminal_cons _ _ (by rfl) (errorTerminal_single_error _)))))

theorem stream_error_event_is_terminal_witness :
    errorTerminal (ScriptService.generate_script_stream
      { envSample with researchOutcome := .error "provider down" } reqSample) :=
  stream_error_event_is_terminal
    { envSample with researchOutcome := .error "provider down" } reqSample

/-- Claim C9: the web-search research variant parses only the span from
the first brace to the last brace, and when no JSON object can be parsed
it returns the degraded record whose sources field is the empty list,
without raising. -/
theorem web_research_extraction (topic : String) (response_text : String) :
    (∀ cand v, web_json_candidate response_text = some cand →
      json_loads cand = some v →
      WebResearchAgent.research_topic topic response_text = v) ∧
    ((web_json_candidate response_text = none ∨
      ∃ cand, web_json_candidate response_text = some cand ∧ json_loads cand = none) →
      WebResearchAgent.research_topic topic response_text =
        .obj (webDegraded topic response_text) ∧
      (webDegraded topic response_text).lookup "sources" = some (.arr [])) := by
  constructor
  · intro cand v hc hv
    simp [WebResearchAgent.research_topic, hc, hv]
  · intro h
    refine ⟨?_, rfl⟩
    rcases h with h | ⟨cand, hc, hv⟩
    · simp [WebResearchAgent.research_topic, h]
    · simp [WebResearchAgent.research_topic, hc, hv]

theorem web_research_extraction_witness :
    WebResearchAgent.research_topic "t" "no json here at all" =
      .obj (webDegraded "t" "no json here at all") ∧
    (webDegraded "t" "no json here at all").lookup "sources" = some (.arr []) :=
  (web_research_extraction "t" "no json here at all").2 (Or.inl (by rfl))

/-- Claim C10 (counterexample): a provider output that is itself a JSON
object with an "error" key is returned unchanged, error key included, so
the variant does not return error-key-free dicts for every output. -/
theorem web_research_error_key_counterexample :
    ∃ fields, WebResearchAgent.research_topic "t" "\x7b\"error\": \"boom\"\x7d" =
        .obj fields ∧
      (fields.lookup "error").isSome = true :=
  ⟨[("error", .str "boom")], rfl, rfl⟩

/-- Claim C10 (amended): on the parse-failure (degraded) path the
web-search variant returns a nonempty dict with no "error" key, so the
orchestrator branch guarded by `not research_data or "error" in
research_data` is unreachable for parse failures. -/
theorem web_research_no_error_key_on_parse_failure (topic : String) (response_text : String)
    (h : web_json_candidate response_text = none ∨
         ∃ cand, web_json_candidate response_text = some cand ∧ json_loads cand = none) :
    ∃ fields, WebResearchAgent.research_topic topic response_text = .obj fields ∧
      fields.lookup "error" = none ∧
      (fields.isEmpty || (fields.lookup "error").isSome) = false := by
  refine ⟨webDegraded topic response_text, ?_, rfl, rfl⟩
  rcases h with h | ⟨cand, hc, hv⟩
  · simp [WebResearchAgent.research_topic, h]
  · simp [WebResearchAgent.research_topic, hc, hv]

theorem web_research_no_error_key_witness :
    ∃ fields, WebResearchAgent.research_topic "t" "broken \x7b json" = .obj fields ∧
      fields.lookup "error" = none ∧
      (fields.isEmpty || (fields.lookup "error").isSome) = false :=
  web_research_no_error_key_on_parse_failure "t" "broken \x7b json" (Or.inl (by rfl))

